import Mathlib

/-
Verification of the greengrass provisioning service against its
natural-language specification.

The development shallowly embeds the components that the claims concern:

* `provisioning_checker.cpp` - detection of an existing installation;
* `config_generator.h/.cpp`  - materialization of credentials and the
  runtime configuration file;
* `status_reporter.cpp`      - the machine-readable progress record;
* `config_database.cpp`      - the device-record lookups;
* `main.cpp`                 - the orchestration control flow and exit codes.

The filesystem is modelled as an association list from paths (lists of
segments, mirroring std::filesystem::path components) to entries; a file
entry carries its content and its permission bits.  External libraries
(nlohmann::json) are modelled as oracles supplied to the functions that
call them.  Each Lean definition is a direct translation of the source
function of the same name.
-/

namespace Greengrass

/-- Permission bits, mirroring std::filesystem::perms. -/
structure Perms where
  ownerRead : Bool
  ownerWrite : Bool
  ownerExec : Bool
  groupRead : Bool
  groupWrite : Bool
  groupExec : Bool
  othersRead : Bool
  othersWrite : Bool
  othersExec : Bool
deriving DecidableEq

/-- A filesystem entry: a directory or a regular file with content. -/
inductive Entry where
  | dir (perms : Perms)
  | file (content : String) (perms : Perms)
deriving DecidableEq

/-- A path is a list of segments, as in std::filesystem::path. -/
abbrev FilePath0 := List String

/-- The filesystem state: an association list from paths to entries. -/
abbrev FS := List (FilePath0 × Entry)

/-- Lookup of a path in the filesystem (first matching entry wins). -/
def lookupFS : FS → FilePath0 → Option Entry
  | [], _ => none
  | (q, e) :: rest, p => if q = p then some e else lookupFS rest p

/-- Store an entry at a path, replacing any previous entry there. -/
def setPath (fs : FS) (p : FilePath0) (e : Entry) : FS :=
  (p, e) :: fs.filter (fun q => !(q.1 = p : Bool))

/-- std::filesystem::exists - the path has an entry of either kind. -/
def existsP (fs : FS) (p : FilePath0) : Bool :=
  (lookupFS fs p).isSome

/-- std::filesystem::is_directory. -/
def isDirP (fs : FS) (p : FilePath0) : Bool :=
  match lookupFS fs p with
  | some (.dir _) => true
  | _ => false

/-- entry.is_regular_file(). -/
def isRegular : Entry → Bool
  | .file _ _ => true
  | .dir _ => false

/-- The name of an entry at path p seen from directory d, when p is a
direct child of d. -/
def childName (d p : FilePath0) : Option String :=
  if d <+: p then
    match p.drop d.length with
    | [n] => some n
    | _ => none
  else none

/-- std::filesystem::directory_iterator - the direct children of a
directory, as pairs of filename and entry. -/
def dirChildren (fs : FS) (d : FilePath0) : List (String × Entry) :=
  fs.filterMap (fun q => (childName d q.1).map (fun n => (n, q.2)))

/-- std::string::find(pat) != npos - substring containment. -/
def containsSub (s pat : String) : Bool :=
  decide (pat.data <:+: s.data)

/-- Index of the last dot in a list of characters, if any. -/
def lastDotIdx : List Char → Nat → Option Nat
  | [], _ => none
  | c :: rest, i =>
    match lastDotIdx rest (i + 1) with
    | some j => some j
    | none => if c = '.' then some i else none

/-- std::filesystem::path::extension() of a filename - the suffix from
the last dot on, empty when that dot starts the name or is absent. -/
def extOf (s : String) : String :=
  match lastDotIdx s.data 0 with
  | none => ""
  | some 0 => ""
  | some i => ⟨s.data.drop i⟩

/-- std::filesystem::path::string() - segments joined by slashes. -/
def pathStr (p : FilePath0) : String :=
  String.intercalate "/" p

/-- Conversion of a string-valued configuration field to a path. -/
def strToPath (s : String) : FilePath0 :=
  s.splitOn "/"

/-! ## ProvisioningChecker (src/provisioning/provisioning_checker.cpp) -/

/-- Detection result, from provisioning_checker.h. -/
structure ProvisioningStatus where
  is_provisioned : Bool := false
  greengrass_version : String := ""
  thing_name : String := ""
  config_file_path : String := ""
  missing_components : List String := []
  details : String := ""
deriving DecidableEq

/-- Oracle for the external nlohmann::json library: the top-level keys of
a JSON document when it parses, and the thingName field nested under
coreThing or system. -/
structure JsonOracle where
  jsonTopKeys : String → Option (List String)
  jsonThingName : String → Option String

/-- ProvisioningChecker::check_config_exists. -/
def check_config_exists (fs : FS) (rp : FilePath0) : Bool :=
  existsP fs (rp ++ ["config", "config.yaml"]) ||
  existsP fs (rp ++ ["config", "config.yml"]) ||
  existsP fs (rp ++ ["config", "config.json"])

/-- ProvisioningChecker::check_directory_not_empty. -/
def check_directory_not_empty (fs : FS) (d : FilePath0) : Bool :=
  match lookupFS fs d with
  | some (.dir _) => !(dirChildren fs d).isEmpty
  | some (.file c _) => !(c = "" : Bool)
  | none => false

/-- ProvisioningChecker::check_certificates_exist. -/
def check_certificates_exist (fs : FS) (rp : FilePath0) : Bool :=
  let certs := rp ++ ["certs"]
  if existsP fs certs then
    if check_directory_not_empty fs certs then
      let found_cert := (dirChildren fs certs).any
        (fun q => isRegular q.2 && (containsSub q.1 ".cert.pem" || containsSub q.1 ".crt"))
      let found_key := (dirChildren fs certs).any
        (fun q => isRegular q.2 && (containsSub q.1 ".private.key" || containsSub q.1 ".key"))
      found_cert && found_key
    else false
  else false

/-- ProvisioningChecker::check_greengrass_root_exists. -/
def check_greengrass_root_exists (fs : FS) (rp : FilePath0) : Bool :=
  existsP fs (rp ++ ["ggc-root"]) && isDirP fs (rp ++ ["ggc-root"])

/-- The candidate configuration files, in the order the checker tries them. -/
def config_candidates (rp : FilePath0) : List FilePath0 :=
  [rp ++ ["config", "config.yaml"], rp ++ ["config", "config.yml"], rp ++ ["config", "config.json"]]

/-- Loop body of ProvisioningChecker::validate_config_file over the
candidate list: empty content rejects, a YAML file passing the marker
check accepts, a JSON parse failure rejects, otherwise the next
candidate is tried. -/
def validate_go (fs : FS) (ext : JsonOracle) : List FilePath0 → Bool
  | [] => false
  | p :: rest =>
    match lookupFS fs p with
    | some (.file content _) =>
      if content = "" then false
      else
        let e := extOf (p.getLastD "")
        if e = ".yaml" ∨ e = ".yml" then
          if containsSub content "system:" && containsSub content "services:" then true
          else validate_go fs ext rest
        else if e = ".json" then
          match ext.jsonTopKeys content with
          | none => false
          | some keys =>
            if keys.contains "coreThing" || keys.contains "system" then true
            else validate_go fs ext rest
        else validate_go fs ext rest
    | _ => validate_go fs ext rest

/-- ProvisioningChecker::validate_config_file. -/
def validate_config_file (fs : FS) (ext : JsonOracle) (rp : FilePath0) : Bool :=
  validate_go fs ext (config_candidates rp)

/-- Whitespace, for the thingName pattern match. -/
def isWS (c : Char) : Bool :=
  c = ' ' || c = '\t' || c = '\n' || c = '\r'

/-- The suffix of l after the first occurrence of pat, if any. -/
def afterFirst : List Char → List Char → Option (List Char)
  | [], pat => if pat.isEmpty then some [] else none
  | c :: rest, pat =>
    if pat <+: (c :: rest) then some ((c :: rest).drop pat.length)
    else afterFirst rest pat

/-- The thingName token extracted from YAML content via the
`thingName:` pattern: first whitespace-delimited token after the key. -/
def read_thing_name_yaml (content : String) : Option String :=
  match afterFirst content.data "thingName:".data with
  | none => none
  | some rest =>
    let tok := (rest.dropWhile isWS).takeWhile (fun c => !isWS c)
    if tok.isEmpty then none else some ⟨tok⟩

/-- Loop body of ProvisioningChecker::read_thing_name_from_config. -/
def read_thing_name_go (fs : FS) (ext : JsonOracle) : List FilePath0 → String
  | [] => "unknown"
  | p :: rest =>
    match lookupFS fs p with
    | some (.file content _) =>
      let e := extOf (p.getLastD "")
      if e = ".yaml" ∨ e = ".yml" then
        match read_thing_name_yaml content with
        | some t => t
        | none => read_thing_name_go fs ext rest
      else if e = ".json" then
        match ext.jsonThingName content with
        | some t => t
        | none => read_thing_name_go fs ext rest
      else read_thing_name_go fs ext rest
    | _ => read_thing_name_go fs ext rest

/-- ProvisioningChecker::read_thing_name_from_config. -/
def read_thing_name_from_config (fs : FS) (ext : JsonOracle) (rp : FilePath0) : String :=
  read_thing_name_go fs ext (config_candidates rp)

/-- ProvisioningChecker::detect_greengrass_version. -/
def detect_greengrass_version (fs : FS) (rp : FilePath0) : String :=
  if existsP fs (rp ++ ["recipes"]) then "v2.x"
  else if existsP fs (rp ++ ["config", "config.yaml"]) ||
          existsP fs (rp ++ ["config", "config.yml"]) then "v2.x"
  else if existsP fs (rp ++ ["config", "config.json"]) then "v1.x"
  else "unknown"

/-- ProvisioningChecker::check_provisioning_status. -/
def check_provisioning_status (fs : FS) (ext : JsonOracle) (rp : FilePath0) : ProvisioningStatus :=
  if !existsP fs rp then
    { is_provisioned := false, details := "Greengrass directory does not exist" }
  else
    let has_config := check_config_exists fs rp
    let has_certs := check_certificates_exist fs rp
    let has_root := check_greengrass_root_exists fs rp
    let missing :=
      (if has_config then [] else ["config"]) ++
      (if has_certs then [] else ["certificates"]) ++
      (if has_root then [] else ["ggc-root"])
    if has_config && has_certs && has_root then
      if validate_config_file fs ext rp then
        { is_provisioned := true,
          thing_name := read_thing_name_from_config fs ext rp,
          greengrass_version := detect_greengrass_version fs rp,
          config_file_path := pathStr (rp ++ ["config", "config.yaml"]),
          missing_components := missing,
          details := "Greengrass is fully provisioned" }
      else
        { is_provisioned := false,
          missing_components := missing,
          details := "Configuration file is invalid or corrupted" }
    else
      { is_provisioned := false,
        missing_components := missing,
        details := "Missing components: " ++ String.intercalate ", " missing }

/-! ## ConfigGenerator (src/config/config_generator.h/.cpp) -/

/-- Device provisioning record, from config_database.h. -/
structure DeviceConfig where
  device_id : String := ""
  thing_name : String := ""
  iot_endpoint : String := ""
  aws_region : String := ""
  root_ca_path : String := ""
  certificate_pem : String := ""
  private_key_pem : String := ""
  role_alias : String := ""
  role_alias_endpoint : String := ""
  nucleus_version : String := ""
  deployment_group : String := ""
  initial_components : List String := []
  proxy_url : Option String := none
  mqtt_port : Option Int := none
  custom_domain : Option String := none
deriving DecidableEq

/-- Materialization result, from config_generator.h. -/
structure GeneratedConfig where
  config_file_path : FilePath0 := []
  certificate_path : FilePath0 := []
  private_key_path : FilePath0 := []
  root_ca_path : FilePath0 := []
  success : Bool := false
  error_message : String := ""
deriving DecidableEq

/-- Private key bits: owner read and write only (set_file_permissions
with is_private_key = true). -/
def private_key_perms : Perms :=
  ⟨true, true, false, false, false, false, false, false, false⟩

/-- Certificate, CA and configuration file bits: owner read and write
plus group read (set_file_permissions with is_private_key = false). -/
def shared_file_perms : Perms :=
  ⟨true, true, false, true, false, false, false, false, false⟩

/-- Bits given to a file on creation, before the explicit chmod. -/
def default_file_perms : Perms :=
  ⟨true, true, false, true, false, false, true, false, false⟩

/-- Bits given to a directory on creation. -/
def default_dir_perms : Perms :=
  ⟨true, true, true, true, false, true, true, false, true⟩

/-- owner_all plus group_read and group_exec, applied to the root and
certs directories by create_directory_structure. -/
def root_dir_perms : Perms :=
  ⟨true, true, true, true, false, true, false, false, false⟩

/-- std::filesystem::permissions with perm_options::replace; a missing
path is a no-op here because set_file_permissions swallows the error. -/
def chmod_replace (fs : FS) (p : FilePath0) (perms : Perms) : FS :=
  match lookupFS fs p with
  | some (.file c _) => setPath fs p (.file c perms)
  | some (.dir _) => setPath fs p (.dir perms)
  | none => fs

/-- ConfigGenerator::set_file_permissions. -/
def set_file_permissions (fs : FS) (p : FilePath0) (is_private_key : Bool) : FS :=
  chmod_replace fs p (if is_private_key then private_key_perms else shared_file_perms)

/-- ConfigGenerator::write_file; the oracle wOk models whether the
stream can be opened for writing at that path. -/
def write_file (fs : FS) (wOk : FilePath0 → Bool) (p : FilePath0) (content : String) :
    Except String FS :=
  if wOk p then .ok (setPath fs p (.file content default_file_perms))
  else .error ("Failed to open file for writing: " ++ pathStr p)

/-- std::filesystem::create_directories on one path: idempotent on an
existing directory, an error when a file is in the way. -/
def create_dir (fs : FS) (p : FilePath0) : Except String FS :=
  match lookupFS fs p with
  | some (.dir _) => .ok fs
  | some (.file _ _) =>
    .error ("Failed to create directory structure: path exists as a file: " ++ pathStr p)
  | none => .ok (setPath fs p (.dir default_dir_perms))

/-- Resolution of the configured root CA value in write_certificates: a
value naming a readable file is replaced by that file content, a
directory reads as empty, anything else is taken as literal content. -/
def resolve_root_ca (fs : FS) (root_ca_path : String) : String :=
  match lookupFS fs (strToPath root_ca_path) with
  | some (.file c _) => c
  | some (.dir _) => ""
  | none => root_ca_path

/-- ConfigGenerator::create_directory_structure. -/
def create_directory_structure (fs : FS) (rp : FilePath0) : Except String FS :=
  match create_dir fs rp with
  | .error e => .error e
  | .ok fs1 =>
  match create_dir fs1 (rp ++ ["config"]) with
  | .error e => .error e
  | .ok fs2 =>
  match create_dir fs2 (rp ++ ["certs"]) with
  | .error e => .error e
  | .ok fs3 =>
  match create_dir fs3 (rp ++ ["logs"]) with
  | .error e => .error e
  | .ok fs4 =>
  match create_dir fs4 (rp ++ ["work"]) with
  | .error e => .error e
  | .ok fs5 =>
  match create_dir fs5 (rp ++ ["packages"]) with
  | .error e => .error e
  | .ok fs6 =>
  match create_dir fs6 (rp ++ ["deployments"]) with
  | .error e => .error e
  | .ok fs7 =>
  match create_dir fs7 (rp ++ ["ggc-root"]) with
  | .error e => .error e
  | .ok fs8 =>
    .ok (chmod_replace (chmod_replace fs8 rp root_dir_perms)
      (rp ++ ["certs"]) root_dir_perms)

/-- ConfigGenerator::write_certificates. -/
def write_certificates (fs : FS) (wOk : FilePath0 → Bool) (rp : FilePath0)
    (dc : DeviceConfig) : Except String FS :=
  let cert_path := rp ++ ["certs", dc.thing_name ++ ".cert.pem"]
  match write_file fs wOk cert_path dc.certificate_pem with
  | .error e => .error e
  | .ok fs1 =>
  let fs2 := set_file_permissions fs1 cert_path false
  let key_path := rp ++ ["certs", dc.thing_name ++ ".private.key"]
  match write_file fs2 wOk key_path dc.private_key_pem with
  | .error e => .error e
  | .ok fs3 =>
  let fs4 := set_file_permissions fs3 key_path true
  let rca_path := rp ++ ["certs", "root.ca.pem"]
  match write_file fs4 wOk rca_path (resolve_root_ca fs4 dc.root_ca_path) with
  | .error e => .error e
  | .ok fs5 => .ok (set_file_permissions fs5 rca_path false)

/-- ConfigGenerator::generate_yaml_config_content. -/
def generate_yaml_config_content (rp : FilePath0) (dc : DeviceConfig) : String :=
  let gg := pathStr rp
  let base :=
    "---\nsystem:\n  certificateFilePath: \"" ++ gg ++ "/certs/" ++ dc.thing_name ++
    ".cert.pem\"\n  privateKeyPath: \"" ++ gg ++ "/certs/" ++ dc.thing_name ++
    ".private.key\"\n  rootCaPath: \"" ++ gg ++
    "/certs/root.ca.pem\"\n  rootpath: \"" ++ gg ++
    "\"\n  thingName: \"" ++ dc.thing_name ++
    "\"\n\nservices:\n  aws.greengrass.Nucleus:\n    version: \"" ++
    (if dc.nucleus_version = "" then "2.9.0" else dc.nucleus_version) ++
    "\"\n    configuration:\n      awsRegion: \"" ++ dc.aws_region ++
    "\"\n      iotRoleAlias: \"" ++ dc.role_alias ++
    "\"\n      iotDataEndpoint: \"" ++ dc.iot_endpoint ++
    "\"\n      iotCredEndpoint: \"" ++ dc.role_alias_endpoint ++ "\"\n"
  let withMqtt := base ++
    (match dc.mqtt_port with
     | some p => "      mqtt:\n        port: " ++ toString p ++ "\n"
     | none => "")
  let withProxy := withMqtt ++
    (match dc.proxy_url with
     | some u => "      networkProxy:\n        proxy:\n          url: \"" ++ u ++ "\"\n"
     | none => "")
  let withLog := withProxy ++
    "      logging:\n        level: \"INFO\"\n        fileSizeKB: 1024\n        totalLogsSizeKB: 25600\n        format: \"JSON\"\n"
  if dc.deployment_group = "" then withLog
  else withLog ++
    "      deploymentPollingFrequency: 15\n      componentStoreMaxSizeBytes: 10737418240\n      deploymentStatusKeepAliveFrequency: 60\n"

/-- ConfigGenerator::generate_greengrass_v2_config. -/
def generate_greengrass_v2_config (fs : FS) (wOk : FilePath0 → Bool) (rp : FilePath0)
    (dc : DeviceConfig) : Except String FS :=
  let cfg := rp ++ ["config", "config.yaml"]
  match write_file fs wOk cfg (generate_yaml_config_content rp dc) with
  | .error e => .error e
  | .ok fs1 => .ok (set_file_permissions fs1 cfg false)

/-- ConfigGenerator::validate_configuration. -/
def validate_configuration (fs : FS) (rp : FilePath0) : Except String Unit :=
  if existsP fs (rp ++ ["config", "config.yaml"]) then
    if (dirChildren fs (rp ++ ["certs"])).any
        (fun q => (extOf q.1 == ".pem") || (extOf q.1 == ".key")) then .ok ()
    else .error "No certificates found in certs directory"
  else .error "config.yaml does not exist"

/-- ConfigGenerator::generate_config; returns the result record together
with the filesystem after the run. -/
def generate_config (fs : FS) (wOk : FilePath0 → Bool) (rp : FilePath0)
    (dc : DeviceConfig) : GeneratedConfig × FS :=
  match create_directory_structure fs rp with
  | .error e => ({ error_message := e }, fs)
  | .ok fs1 =>
    match write_certificates fs1 wOk rp dc with
    | .error e => ({ error_message := e }, fs1)
    | .ok fs2 =>
      match generate_greengrass_v2_config fs2 wOk rp dc with
      | .error e => ({ error_message := e }, fs2)
      | .ok fs3 =>
        match validate_configuration fs3 rp with
        | .error e => ({ error_message := e }, fs3)
        | .ok _ =>
          ({ config_file_path := rp ++ ["config", "config.yaml"],
             certificate_path := rp ++ ["certs", dc.thing_name ++ ".cert.pem"],
             private_key_path := rp ++ ["certs", dc.thing_name ++ ".private.key"],
             root_ca_path := rp ++ ["certs", "root.ca.pem"],
             success := true }, fs3)

/-! ## StatusReporter (src/status/status_reporter.h/.cpp) -/

/-- The phase enumeration, from status_reporter.h. -/
inductive ServiceStatus where
  | STARTING
  | CHECKING_PROVISIONING
  | ALREADY_PROVISIONED
  | CHECKING_CONNECTIVITY
  | NO_CONNECTIVITY
  | READING_DATABASE
  | GENERATING_CONFIG
  | PROVISIONING
  | COMPLETED
  | ERROR
deriving DecidableEq

/-- All ten phases. -/
def allStatuses : List ServiceStatus :=
  [.STARTING, .CHECKING_PROVISIONING, .ALREADY_PROVISIONED, .CHECKING_CONNECTIVITY,
   .NO_CONNECTIVITY, .READING_DATABASE, .GENERATING_CONFIG, .PROVISIONING,
   .COMPLETED, .ERROR]

/-- The in-memory status record, from status_reporter.h; the timestamp is
an abstract clock value. -/
structure StatusInfo where
  status : ServiceStatus
  message : String
  timestamp : Nat
  progress_percentage : Int
  error_details : String
deriving DecidableEq

/-- The record set up by the StatusReporter constructor. -/
def initial_status (now : Nat) : StatusInfo :=
  { status := .STARTING, message := "Service is starting", timestamp := now,
    progress_percentage := 0, error_details := "" }

/-- The default message switch in StatusReporter::update_status. -/
def default_message : ServiceStatus → String
  | .STARTING => "Service is starting"
  | .CHECKING_PROVISIONING => "Checking if Greengrass is already provisioned"
  | .ALREADY_PROVISIONED => "Greengrass is already provisioned"
  | .CHECKING_CONNECTIVITY => "Checking internet connectivity"
  | .NO_CONNECTIVITY => "No internet connectivity available"
  | .READING_DATABASE => "Reading configuration from database"
  | .GENERATING_CONFIG => "Generating Greengrass configuration"
  | .PROVISIONING => "Provisioning Greengrass device"
  | .COMPLETED => "Provisioning completed successfully"
  | .ERROR => "An error occurred during provisioning"

/-- The auto-calculated progress switch in StatusReporter::update_status;
for ERROR the existing progress is kept. -/
def auto_progress (s : ServiceStatus) (prev : Int) : Int :=
  match s with
  | .STARTING => 5
  | .CHECKING_PROVISIONING => 10
  | .ALREADY_PROVISIONED => 100
  | .COMPLETED => 100
  | .CHECKING_CONNECTIVITY => 20
  | .NO_CONNECTIVITY => 20
  | .READING_DATABASE => 40
  | .GENERATING_CONFIG => 60
  | .PROVISIONING => 80
  | .ERROR => prev

/-- StatusReporter::update_status. -/
def update_status (st : StatusInfo) (s : ServiceStatus) (msg : String)
    (progress : Int) (now : Nat) : StatusInfo :=
  { status := s
    message := if msg = "" then default_message s else msg
    timestamp := now
    progress_percentage :=
      if 0 ≤ progress ∧ progress ≤ 100 then progress
      else auto_progress s st.progress_percentage
    error_details := if s = .ERROR then st.error_details else "" }

/-- StatusReporter::report_error. -/
def report_error (st : StatusInfo) (error_message details : String) (now : Nat) : StatusInfo :=
  { status := .ERROR
    message := error_message
    timestamp := now
    progress_percentage := st.progress_percentage
    error_details := details }

/-- StatusReporter::status_to_string. -/
def status_to_string : ServiceStatus → String
  | .STARTING => "STARTING"
  | .CHECKING_PROVISIONING => "CHECKING_PROVISIONING"
  | .ALREADY_PROVISIONED => "ALREADY_PROVISIONED"
  | .CHECKING_CONNECTIVITY => "CHECKING_CONNECTIVITY"
  | .NO_CONNECTIVITY => "NO_CONNECTIVITY"
  | .READING_DATABASE => "READING_DATABASE"
  | .GENERATING_CONFIG => "GENERATING_CONFIG"
  | .PROVISIONING => "PROVISIONING"
  | .COMPLETED => "COMPLETED"
  | .ERROR => "ERROR"

/-- The persisted JSON document built by StatusReporter::write_status_file;
error_details carries none when the key is omitted. -/
structure StatusJson where
  status : String
  message : String
  timestamp : Nat
  progress_percentage : Int
  error_details : Option String
deriving DecidableEq

/-- StatusReporter::write_status_file - the document written (the key
error_details is added only for a non-empty detail string). -/
def write_status_file (st : StatusInfo) : StatusJson :=
  { status := status_to_string st.status
    message := st.message
    timestamp := st.timestamp
    progress_percentage := st.progress_percentage
    error_details := if st.error_details = "" then none else some st.error_details }

/-- The status records a single StatusReporter instance can hold: the
constructor state followed by any sequence of update_status and
report_error calls. -/
inductive ReachableStatus : StatusInfo → Prop where
  | init (now : Nat) : ReachableStatus (initial_status now)
  | update (st : StatusInfo) (s : ServiceStatus) (msg : String) (p : Int) (now : Nat) :
      ReachableStatus st → ReachableStatus (update_status st s msg p now)
  | err (st : StatusInfo) (m d : String) (now : Nat) :
      ReachableStatus st → ReachableStatus (report_error st m d now)

/-! ## ConfigDatabase (src/database/config_database.cpp) -/

/-- The record store state: the connection flag and the two tables. The
device_identifiers table maps a MAC address or serial number to the row
content of the device_id column (an empty string models a NULL column);
device_config maps a primary device id to its record. -/
structure DB where
  connected : Bool
  ident_row : String → Option String
  config_row : String → Option DeviceConfig

/-- ConfigDatabase::get_device_config. -/
def get_device_config (db : DB) (device_id : String) : Option DeviceConfig :=
  if db.connected then db.config_row device_id else none

/-- ConfigDatabase::get_device_config_by_identifier. -/
def get_device_config_by_identifier (db : DB) (identifier : String) : Option DeviceConfig :=
  if db.connected then
    match db.ident_row identifier with
    | none => none
    | some device_id =>
      if device_id = "" then none else get_device_config db device_id
  else none

/-! ## main (src/main.cpp) -/

/-- Parsed command-line options, from argument_parser.h. -/
structure ProgramOptions where
  database_path : String := ""
  greengrass_path : String := ""
  status_file : String := "/var/run/greengrass-provisioning.status"
  verbose : Bool := false
  help : Bool := false

/-- Reachability probe outcome, from connectivity_checker.h. -/
structure ConnectivityResult where
  is_connected : Bool := false
  dns_works : Bool := false
  https_works : Bool := false
  error_message : String := ""
deriving DecidableEq

/-- Install and activate step outcome, from greengrass_provisioner.h. -/
structure ProvisioningResult where
  success : Bool := false
  error_message : String := ""
deriving DecidableEq

/-- The collaborator outcomes observed by one run of main: the parse
result, the detection result, the probe result, whether the database
connection succeeded, the database content, the device identifier of the
host, and the materialization and install step outcomes. -/
structure MainEnv where
  options : Option ProgramOptions
  prov_status : ProvisioningStatus
  conn_result : ConnectivityResult
  db_connect : Bool
  db : DB
  device_identifier : String
  generated : GeneratedConfig
  prov_result : ProvisioningResult

/-- The device-record fetch of main (lines 128-135): the secondary
identifier lookup, then the fallback to the primary id "default", then
the error that reaches the catch block. -/
def fetch_device_config (db : DB) (identifier : String) : Except String DeviceConfig :=
  match get_device_config_by_identifier db identifier with
  | some cfg => .ok cfg
  | none =>
    match get_device_config db "default" with
    | some cfg => .ok cfg
    | none => .error "No device configuration found in database"

/-- The try block of main: ok carries an early return code, error carries
the message of the exception that the catch block turns into exit code 1. -/
def main_try (e : MainEnv) : Except String Nat :=
  if e.prov_status.is_provisioned then .ok 0
  else if !e.conn_result.is_connected then .ok 2
  else if !e.db_connect then .error "Failed to connect to database"
  else
    match fetch_device_config e.db e.device_identifier with
    | .error msg => .error msg
    | .ok _ =>
      if !e.generated.success then
        .error ("Failed to generate configuration: " ++ e.generated.error_message)
      else if !e.prov_result.success then
        .error ("Provisioning failed: " ++ e.prov_result.error_message)
      else .ok 0

/-- main: exit code 1 on argument parse failure, otherwise the try block
result, with any exception mapped to exit code 1 by the catch block. -/
def main_model (e : MainEnv) : Nat :=
  match e.options with
  | none => 1
  | some _ =>
    match main_try e with
    | .ok n => n
    | .error _ => 1

/-! ## Helper lemmas -/

/-- Lookup skips entries that a setPath at a different path filtered. -/
theorem lookupFS_filter_ne (fs : FS) (p q : FilePath0) (h : p ≠ q) :
    lookupFS (fs.filter (fun r => !(r.1 = p : Bool))) q = lookupFS fs q := by
  induction fs with
  | nil => rfl
  | cons a rest ih =>
    obtain ⟨a1, a2⟩ := a
    by_cases hap : a1 = p
    · subst hap
      simp [List.filter_cons, lookupFS, h, ih]
    · simp [List.filter_cons, lookupFS, hap, ih]

/-- Lookup after a store: the stored entry at the stored path, the old
view elsewhere. -/
theorem lookupFS_setPath (fs : FS) (p q : FilePath0) (e : Entry) :
    lookupFS (setPath fs p e) q = if p = q then some e else lookupFS fs q := by
  by_cases h : p = q
  · simp [setPath, lookupFS, h]
  · simp [setPath, lookupFS, h, lookupFS_filter_ne fs p q h]

/-- A child of d named n sits at the path d ++ [n]. -/
theorem childName_append (d : FilePath0) (n : String) :
    childName d (d ++ [n]) = some n := by
  unfold childName
  rw [if_pos (List.prefix_append d [n])]
  simp [List.drop_left]

/-- Substring containment from an explicit split of the string. -/
theorem containsSub_of_split (s x pat y : String) (h : s = x ++ (pat ++ y)) :
    containsSub s pat = true := by
  subst h
  unfold containsSub
  rw [decide_eq_true_iff]
  rw [String.data_append, String.data_append]
  exact (List.infix_append x.data pat.data y.data).trans
    (by rw [List.append_assoc])

/-- Containment in the left part survives an append. -/
theorem containsSub_append_left (a b pat : String) (h : containsSub a pat = true) :
    containsSub (a ++ b) pat = true := by
  unfold containsSub at h ⊢
  rw [decide_eq_true_iff] at h ⊢
  rw [String.data_append]
  exact h.trans (List.prefix_append a.data b.data).isInfix

/-- Containment in the right part survives an append. -/
theorem containsSub_append_right (a b pat : String) (h : containsSub b pat = true) :
    containsSub (a ++ b) pat = true := by
  unfold containsSub at h ⊢
  rw [decide_eq_true_iff] at h ⊢
  rw [String.data_append]
  exact h.trans (List.suffix_append a.data b.data).isInfix

/-- Appending on the left preserves any key below. -/
theorem ne_of_append_segments (rp : FilePath0) (l1 l2 : List String) (h : l1 ≠ l2) :
    rp ++ l1 ≠ rp ++ l2 := fun hh => h (List.append_cancel_left hh)

/-- The config subdirectory and the certs subdirectory never collide. -/
theorem config_path_ne_certs_path (rp : FilePath0) (a b : String) :
    rp ++ ["config", a] ≠ rp ++ ["certs", b] := by
  apply ne_of_append_segments
  intro h
  have : "config" = "certs" := by injection h
  exact absurd this (by decide)

/-- The private key filename never collides with the fixed CA filename. -/
theorem key_name_ne_rca_name (t : String) : t ++ ".private.key" ≠ "root.ca.pem" := by
  intro h
  have hl := congrArg String.length h
  rw [String.length_append] at hl
  have h1 : String.length ".private.key" = 12 := rfl
  have h2 : String.length "root.ca.pem" = 11 := rfl
  omega

/-- The certificate filename never collides with the fixed CA filename. -/
theorem cert_name_ne_rca_name (t : String) : t ++ ".cert.pem" ≠ "root.ca.pem" := by
  intro h
  have hd := congrArg String.data h
  rw [String.data_append] at hd
  have hsplit : ("root.ca.pem" : String).data = ("ro" : String).data ++ ("ot.ca.pem" : String).data := rfl
  rw [hsplit] at hd
  have hlen : (".cert.pem" : String).data.length = ("ot.ca.pem" : String).data.length := rfl
  have := (List.append_inj' hd hlen).2
  exact absurd this (by decide)

/-- The certificate filename never collides with the key filename. -/
theorem cert_name_ne_key_name (t : String) : t ++ ".cert.pem" ≠ t ++ ".private.key" := by
  intro h
  have hl := congrArg String.length h
  rw [String.length_append, String.length_append] at hl
  have h1 : String.length ".cert.pem" = 9 := rfl
  have h2 : String.length ".private.key" = 12 := rfl
  omega

/-- Path-level variant of the filename facts, for segment tails. -/
theorem tail_path_ne (rp : FilePath0) (d a b : String) (h : a ≠ b) :
    rp ++ [d, a] ≠ rp ++ [d, b] := by
  apply ne_of_append_segments
  intro hh
  have : a = b := by
    have := List.tail_eq_of_cons_eq hh
    injection this
  exact h this

/-- An entry survives a store at a different path. -/
theorem mem_setPath_of_ne (fs : FS) (p q : FilePath0) (e e2 : Entry)
    (hmem : (q, e) ∈ fs) (hq : q ≠ p) : (q, e) ∈ setPath fs p e2 := by
  unfold setPath
  exact List.mem_cons_of_mem _ (List.mem_filter.mpr ⟨hmem, by simp [hq]⟩)

/-- A directory scan finds a matching entry from a member at a child
path. -/
theorem dirChildren_any_of_mem (fs : FS) (d q : FilePath0) (e : Entry) (n : String)
    (f : String × Entry → Bool)
    (hmem : (q, e) ∈ fs) (hcn : childName d q = some n) (hf : f (n, e) = true) :
    (dirChildren fs d).any f = true := by
  apply List.any_eq_true.mpr
  refine ⟨(n, e), ?_, hf⟩
  unfold dirChildren
  exact List.mem_filterMap.mpr ⟨(q, e), hmem, by simp [hcn]⟩

/-- A file named n in the certs subdirectory is a child of that
subdirectory. -/
theorem childName_certs (rp : FilePath0) (n : String) :
    childName (rp ++ ["certs"]) (rp ++ ["certs", n]) = some n := by
  have h : rp ++ ["certs", n] = (rp ++ ["certs"]) ++ [n] := by
    rw [List.append_assoc]; rfl
  rw [h, childName_append]

/-- The generator validation step passes when config.yaml exists and the
certs scan finds a recognizable extension. -/
theorem validate_configuration_ok (fs : FS) (rp : FilePath0)
    (h1 : existsP fs (rp ++ ["config", "config.yaml"]) = true)
    (h2 : (dirChildren fs (rp ++ ["certs"])).any
        (fun q => (extOf q.1 == ".pem") || (extOf q.1 == ".key")) = true) :
    validate_configuration fs rp = .ok () := by
  unfold validate_configuration
  rw [if_pos h1, if_pos h2]

/-! ## Claims about the status reporter -/

/-- C9: report_error forces the phase to ERROR, stores the supplied
message, detail and timestamp, and leaves the stored
progress_percentage unchanged. -/
theorem claim9_report_error_preserves_progress (st : StatusInfo) (m d : String) (now : Nat) :
    (report_error st m d now).progress_percentage = st.progress_percentage ∧
    (report_error st m d now).status = .ERROR ∧
    (report_error st m d now).message = m ∧
    (report_error st m d now).error_details = d ∧
    (report_error st m d now).timestamp = now :=
  ⟨rfl, rfl, rfl, rfl, rfl⟩

/-- C7 counterexample: an update to the ERROR phase with an empty message
stores the fixed default string for ERROR, so ERROR does have a default
message and the caller need not supply one, contrary to the claim. -/
theorem claim7_error_default_counterexample :
    (update_status (initial_status 0) .ERROR "" (-1) 0).message =
      "An error occurred during provisioning" ∧
    (update_status (initial_status 0) .ERROR "" (-1) 0).message ≠ "" := by
  constructor
  · rfl
  · decide

/-- C7 amended: for every phase, including ERROR, an update_status call
with an empty message stores that phase's fixed default message; the ten
defaults, one per phase, are pairwise distinct and non-empty. -/
theorem claim7_default_message_substitution (st : StatusInfo) (s : ServiceStatus)
    (p : Int) (now : Nat) :
    (update_status st s "" p now).message = default_message s ∧
    default_message s ≠ "" ∧
    (allStatuses.map default_message).Nodup ∧
    allStatuses.length = 10 := by
  refine ⟨rfl, ?_, ?_, rfl⟩
  · cases s <;> decide
  · decide

/-- C6: an out-of-range progress argument is not rejected: the update
happens and the stored progress always lands inside [0, 100], given that
the previous stored progress was inside [0, 100]; in particular the
calls with -10 and 150 land at ≥ 0 and ≤ 100 respectively. -/
theorem claim6_progress_clamped (st : StatusInfo) (s : ServiceStatus) (msg : String)
    (now : Nat) (h0 : 0 ≤ st.progress_percentage) (h1 : st.progress_percentage ≤ 100) :
    (∀ p : Int, 0 ≤ (update_status st s msg p now).progress_percentage ∧
      (update_status st s msg p now).progress_percentage ≤ 100) ∧
    0 ≤ (update_status st s msg (-10) now).progress_percentage ∧
    (update_status st s msg 150 now).progress_percentage ≤ 100 := by
  have key : ∀ p : Int, 0 ≤ (update_status st s msg p now).progress_percentage ∧
      (update_status st s msg p now).progress_percentage ≤ 100 := by
    intro p
    unfold update_status
    dsimp only
    split
    · omega
    · cases s <;> (simp only [auto_progress]; omega)
  exact ⟨key, (key (-10)).1, (key 150).2⟩

/-- C6 witness: the clamping theorem applied at a concrete state and the
two concrete out-of-range arguments of the claim. -/
theorem claim6_progress_clamped_witness :
    0 ≤ (update_status (initial_status 0) .PROVISIONING "x" (-10) 0).progress_percentage ∧
    (update_status (initial_status 0) .PROVISIONING "x" 150 0).progress_percentage ≤ 100 :=
  ⟨(claim6_progress_clamped (initial_status 0) .PROVISIONING "x" 0 (by decide) (by decide)).2.1,
   (claim6_progress_clamped (initial_status 0) .PROVISIONING "x" 0 (by decide) (by decide)).2.2⟩

/-- Invariant of every reachable reporter state: outside the ERROR phase
the stored error detail is empty. -/
theorem error_details_empty_of_not_error (st : StatusInfo) (h : ReachableStatus st) :
    st.status ≠ .ERROR → st.error_details = "" := by
  induction h with
  | init now => intro _; rfl
  | update st s msg p now _ _ =>
    intro hne
    unfold update_status at hne ⊢
    dsimp only at hne ⊢
    by_cases hs : s = ServiceStatus.ERROR
    · exact absurd hs hne
    · simp [hs]
  | err st m d now _ _ =>
    intro hne
    exact absurd rfl hne

/-- C8: the persisted document carries the error_details key iff the
stored detail is non-empty; on every reachable state the detail is
non-empty only in the ERROR phase; report_error with an empty detail and
any update to a non-ERROR phase both persist a document without the key. -/
theorem claim8_error_details_omission (st : StatusInfo) (h : ReachableStatus st) :
    ((write_status_file st).error_details ≠ none ↔ st.error_details ≠ "") ∧
    (st.status ≠ .ERROR → (write_status_file st).error_details = none) ∧
    (∀ m now, (write_status_file (report_error st m "" now)).error_details = none) ∧
    (∀ s msg p now, s ≠ ServiceStatus.ERROR →
      (write_status_file (update_status st s msg p now)).error_details = none) := by
  refine ⟨?_, ?_, ?_, ?_⟩
  · unfold write_status_file
    dsimp only
    by_cases he : st.error_details = "" <;> simp [he]
  · intro hne
    have hempty := error_details_empty_of_not_error st h hne
    simp [write_status_file, hempty]
  · intro m now
    simp [write_status_file, report_error]
  · intro s msg p now hs
    simp [write_status_file, update_status, hs]

/-- C8 witness: the omission theorem applied at the constructor state. -/
theorem claim8_error_details_omission_witness :
    (write_status_file (report_error (initial_status 0) "x" "" 1)).error_details = none :=
  (claim8_error_details_omission (initial_status 0) (ReachableStatus.init 0)).2.2.1 "x" 1

/-! ## Claims about the provisioning checker -/

/-- C1: is_provisioned can be true only when the config file check, the
certificate and key pattern check, the ggc-root directory check and the
content validation all pass; and when the three component checks pass
but validation fails, the result is not provisioned, carries the fixed
invalid-configuration detail string, and lists no missing components. -/
theorem claim1_provisioned_requires_all (fs : FS) (ext : JsonOracle) (rp : FilePath0) :
    ((check_provisioning_status fs ext rp).is_provisioned = true →
      check_config_exists fs rp = true ∧
      check_certificates_exist fs rp = true ∧
      check_greengrass_root_exists fs rp = true ∧
      validate_config_file fs ext rp = true) ∧
    (existsP fs rp = true →
      check_config_exists fs rp = true →
      check_certificates_exist fs rp = true →
      check_greengrass_root_exists fs rp = true →
      validate_config_file fs ext rp = false →
      (check_provisioning_status fs ext rp).is_provisioned = false ∧
      (check_provisioning_status fs ext rp).details = "Configuration file is invalid or corrupted" ∧
      (check_provisioning_status fs ext rp).missing_components = []) := by
  by_cases hex : existsP fs rp = true
  · cases hc : check_config_exists fs rp <;>
    cases hcer : check_certificates_exist fs rp <;>
    cases hr : check_greengrass_root_exists fs rp <;>
    cases hv : validate_config_file fs ext rp <;>
    simp [check_provisioning_status, hex, hc, hcer, hr, hv]
  · have hex2 : existsP fs rp = false := by
      cases hfs : existsP fs rp
      · rfl
      · exact absurd hfs hex
    simp [check_provisioning_status, hex2]

/-- A root directory tree whose three components all exist but whose
config.yaml content fails the marker validation. -/
def fsC1 : FS :=
  [(["g"], .dir default_dir_perms),
   (["g", "config"], .dir default_dir_perms),
   (["g", "config", "config.yaml"], .file "system: present" default_file_perms),
   (["g", "certs"], .dir default_dir_perms),
   (["g", "certs", "a.cert.pem"], .file "CERT" default_file_perms),
   (["g", "certs", "a.private.key"], .file "KEY" default_file_perms),
   (["g", "ggc-root"], .dir default_dir_perms)]

/-- A JSON oracle under which no content parses, matching a filesystem
holding no JSON configuration. -/
def extNoJson : JsonOracle := ⟨fun _ => none, fun _ => none⟩

/-- C1 witness: the invalid-content branch of the theorem at a concrete
tree whose components are present but whose config lacks the services
marker. -/
theorem claim1_provisioned_requires_all_witness :
    (check_provisioning_status fsC1 extNoJson ["g"]).is_provisioned = false ∧
    (check_provisioning_status fsC1 extNoJson ["g"]).details = "Configuration file is invalid or corrupted" ∧
    (check_provisioning_status fsC1 extNoJson ["g"]).missing_components = [] :=
  (claim1_provisioned_requires_all fsC1 extNoJson ["g"]).2
    (by decide) (by decide) (by decide) (by decide) (by decide)

/-- The end-to-end device record of the specification scenario. -/
def specDeviceConfig : DeviceConfig :=
  { device_id := "d1", thing_name := "Thing1", iot_endpoint := "iot.example.com",
    aws_region := "us-east-1", root_ca_path := "CA-PEM", certificate_pem := "CERT-PEM",
    private_key_pem := "KEY-PEM", role_alias := "Role1",
    role_alias_endpoint := "cred.example.com", mqtt_port := some 8883 }

/-- C5 counterexample: with a recipes directory present the detector
reports the tag "v2.x", not "v2" as the claim states. -/
theorem claim5_version_tag_counterexample :
    existsP [(["g", "recipes"], Entry.dir default_dir_perms)] (["g"] ++ ["recipes"]) = true ∧
    detect_greengrass_version [(["g", "recipes"], Entry.dir default_dir_perms)] ["g"] ≠ "v2" := by
  decide

set_option maxRecDepth 10000 in
/-- C5 amended: the detected tag is "v2.x" iff a recipes directory or a
YAML-style config file exists, "v1.x" iff neither does and a JSON-style
config exists, and "unknown" otherwise; and detection after the
materialization of the specification scenario reports a provisioned tree
with tag "v2.x". -/
theorem claim5_version_tag_rule :
    (∀ (fs : FS) (rp : FilePath0),
      (detect_greengrass_version fs rp = "v2.x" ↔
        (existsP fs (rp ++ ["recipes"]) = true ∨
         existsP fs (rp ++ ["config", "config.yaml"]) = true ∨
         existsP fs (rp ++ ["config", "config.yml"]) = true)) ∧
      (detect_greengrass_version fs rp = "v1.x" ↔
        (existsP fs (rp ++ ["recipes"]) = false ∧
         existsP fs (rp ++ ["config", "config.yaml"]) = false ∧
         existsP fs (rp ++ ["config", "config.yml"]) = false ∧
         existsP fs (rp ++ ["config", "config.json"]) = true)) ∧
      (detect_greengrass_version fs rp = "unknown" ↔
        (existsP fs (rp ++ ["recipes"]) = false ∧
         existsP fs (rp ++ ["config", "config.yaml"]) = false ∧
         existsP fs (rp ++ ["config", "config.yml"]) = false ∧
         existsP fs (rp ++ ["config", "config.json"]) = false))) ∧
    ((generate_config [] (fun _ => true) ["g"] specDeviceConfig).1.success = true ∧
     (check_provisioning_status (generate_config [] (fun _ => true) ["g"] specDeviceConfig).2
        extNoJson ["g"]).is_provisioned = true ∧
     (check_provisioning_status (generate_config [] (fun _ => true) ["g"] specDeviceConfig).2
        extNoJson ["g"]).greengrass_version = "v2.x") := by
  constructor
  · intro fs rp
    have n1 : ("v2.x" : String) ≠ "v1.x" := by decide
    have n2 : ("v2.x" : String) ≠ "unknown" := by decide
    have n3 : ("v1.x" : String) ≠ "v2.x" := by decide
    have n4 : ("v1.x" : String) ≠ "unknown" := by decide
    have n5 : ("unknown" : String) ≠ "v2.x" := by decide
    have n6 : ("unknown" : String) ≠ "v1.x" := by decide
    cases h1 : existsP fs (rp ++ ["recipes"]) <;>
    cases h2 : existsP fs (rp ++ ["config", "config.yaml"]) <;>
    cases h3 : existsP fs (rp ++ ["config", "config.yml"]) <;>
    cases h4 : existsP fs (rp ++ ["config", "config.json"]) <;>
    simp [detect_greengrass_version, h1, h2, h3, h4, n1, n2, n3, n4, n5, n6]
  · refine ⟨by decide, by decide, by decide⟩

/-! ## Claims about the database lookup and main -/

/-- C10: when the secondary-identifier lookup yields nothing, main falls
back to the primary-id lookup for the literal id "default", and the
missing-configuration error is raised exactly when both lookups yield
nothing. -/
theorem claim10_default_fallback (db : DB) (identifier : String) :
    (get_device_config_by_identifier db identifier = none →
      fetch_device_config db identifier =
        (match get_device_config db "default" with
         | some cfg => Except.ok cfg
         | none => Except.error "No device configuration found in database")) ∧
    (fetch_device_config db identifier = .error "No device configuration found in database" ↔
      (get_device_config_by_identifier db identifier = none ∧
       get_device_config db "default" = none)) ∧
    (∀ cfg, get_device_config_by_identifier db identifier = none →
      get_device_config db "default" = some cfg →
      fetch_device_config db identifier = .ok cfg) := by
  refine ⟨?_, ?_, ?_⟩ <;>
  · cases h1 : get_device_config_by_identifier db identifier <;>
    cases h2 : get_device_config db "default" <;>
    simp [fetch_device_config, h1, h2]

/-- A store whose identifier table is empty but which holds a record
under the primary id "default". -/
def dbC10 : DB :=
  ⟨true, fun _ => none,
   fun id => if id = "default" then some { device_id := "default", thing_name := "T" } else none⟩

/-- C10 witness: the fallback theorem applied to a store that only knows
the "default" record, looked up by a MAC-style identifier. -/
theorem claim10_default_fallback_witness :
    fetch_device_config dbC10 "aabbccddeeff" =
      .ok { device_id := "default", thing_name := "T" } :=
  (claim10_default_fallback dbC10 "aabbccddeeff").2.2 _ (by decide) (by decide)

/-- C2: exit code 1 on argument-parse failure; 0 when detection reports
an already provisioned device; 2 when the connectivity check reports not
connected; 0 when every later step succeeds; 1 when any later step
fails; and no other exit code occurs. -/
theorem claim2_exit_codes (e : MainEnv) :
    (e.options = none → main_model e = 1) ∧
    (∀ o, e.options = some o → e.prov_status.is_provisioned = true → main_model e = 0) ∧
    (∀ o, e.options = some o → e.prov_status.is_provisioned = false →
      e.conn_result.is_connected = false → main_model e = 2) ∧
    (∀ o cfg, e.options = some o → e.prov_status.is_provisioned = false →
      e.conn_result.is_connected = true → e.db_connect = true →
      fetch_device_config e.db e.device_identifier = .ok cfg →
      e.generated.success = true → e.prov_result.success = true → main_model e = 0) ∧
    (∀ o, e.options = some o → e.prov_status.is_provisioned = false →
      e.conn_result.is_connected = true →
      (e.db_connect = false ∨
       (∃ msg, fetch_device_config e.db e.device_identifier = .error msg) ∨
       e.generated.success = false ∨ e.prov_result.success = false) →
      main_model e = 1) ∧
    (main_model e = 0 ∨ main_model e = 1 ∨ main_model e = 2) := by
  cases ho : e.options with
  | none => simp [main_model, ho]
  | some o =>
    cases hp : e.prov_status.is_provisioned <;>
    cases hcn : e.conn_result.is_connected <;>
    cases hdb : e.db_connect <;>
    cases hf : fetch_device_config e.db e.device_identifier <;>
    cases hg : e.generated.success <;>
    cases hpr : e.prov_result.success <;>
    simp [main_model, main_try, ho, hp, hcn, hdb, hf, hg, hpr]

/-- An environment whose argument parse failed. -/
def envC2 : MainEnv :=
  { options := none, prov_status := {}, conn_result := {}, db_connect := false,
    db := ⟨false, fun _ => none, fun _ => none⟩, device_identifier := "",
    generated := {}, prov_result := {} }

/-- C2 witness: the exit-code theorem applied to the parse-failure
environment. -/
theorem claim2_exit_codes_witness : main_model envC2 = 1 :=
  (claim2_exit_codes envC2).1 rfl

/-! ## Claims about the config generator -/

/-- C3: whenever generate_config reports success, the private key file
sits at the returned path with owner read/write bits only and no group
or other access, while the certificate and the root CA files carry owner
read/write plus group read. -/
theorem claim3_private_key_permissions (fs : FS) (wOk : FilePath0 → Bool) (rp : FilePath0)
    (dc : DeviceConfig) (h : (generate_config fs wOk rp dc).1.success = true) :
    lookupFS (generate_config fs wOk rp dc).2 (generate_config fs wOk rp dc).1.private_key_path =
      some (.file dc.private_key_pem private_key_perms) ∧
    lookupFS (generate_config fs wOk rp dc).2 (generate_config fs wOk rp dc).1.certificate_path =
      some (.file dc.certificate_pem shared_file_perms) ∧
    (∃ c, lookupFS (generate_config fs wOk rp dc).2 (generate_config fs wOk rp dc).1.root_ca_path =
      some (.file c shared_file_perms)) ∧
    private_key_perms = ⟨true, true, false, false, false, false, false, false, false⟩ ∧
    shared_file_perms.ownerRead = true ∧ shared_file_perms.groupRead = true := by
  have hck : rp ++ ["certs", dc.thing_name ++ ".cert.pem"] ≠
      rp ++ ["certs", dc.thing_name ++ ".private.key"] :=
    tail_path_ne rp "certs" _ _ (cert_name_ne_key_name dc.thing_name)
  have hcr : rp ++ ["certs", dc.thing_name ++ ".cert.pem"] ≠ rp ++ ["certs", "root.ca.pem"] :=
    tail_path_ne rp "certs" _ _ (cert_name_ne_rca_name dc.thing_name)
  have hkr : rp ++ ["certs", dc.thing_name ++ ".private.key"] ≠ rp ++ ["certs", "root.ca.pem"] :=
    tail_path_ne rp "certs" _ _ (key_name_ne_rca_name dc.thing_name)
  have hfc : rp ++ ["config", "config.yaml"] ≠ rp ++ ["certs", dc.thing_name ++ ".cert.pem"] :=
    config_path_ne_certs_path rp _ _
  have hfk : rp ++ ["config", "config.yaml"] ≠ rp ++ ["certs", dc.thing_name ++ ".private.key"] :=
    config_path_ne_certs_path rp _ _
  have hfr : rp ++ ["config", "config.yaml"] ≠ rp ++ ["certs", "root.ca.pem"] :=
    config_path_ne_certs_path rp _ _
  cases hcd : create_directory_structure fs rp with
  | error e => simp [generate_config, hcd] at h
  | ok fs1 =>
  cases hwc : write_certificates fs1 wOk rp dc with
  | error e => simp [generate_config, hcd, hwc] at h
  | ok fs2 =>
  cases hgg : generate_greengrass_v2_config fs2 wOk rp dc with
  | error e => simp [generate_config, hcd, hwc, hgg] at h
  | ok fs3 =>
  cases hv : validate_configuration fs3 rp with
  | error e => simp [generate_config, hcd, hwc, hgg, hv] at h
  | ok u =>
    simp only [generate_config, hcd, hwc, hgg, hv]
    cases hw1 : wOk (rp ++ ["certs", dc.thing_name ++ ".cert.pem"]) with
    | false => simp [write_certificates, write_file, hw1] at hwc
    | true =>
    cases hw2 : wOk (rp ++ ["certs", dc.thing_name ++ ".private.key"]) with
    | false => simp [write_certificates, write_file, hw1, hw2] at hwc
    | true =>
    cases hw3 : wOk (rp ++ ["certs", "root.ca.pem"]) with
    | false => simp [write_certificates, write_file, hw1, hw2, hw3] at hwc
    | true =>
    cases hw4 : wOk (rp ++ ["config", "config.yaml"]) with
    | false => simp [generate_greengrass_v2_config, write_file, hw4] at hgg
    | true =>
      simp only [write_certificates, write_file, hw1, hw2, hw3, if_true,
        set_file_permissions, chmod_replace, lookupFS_setPath, if_pos rfl,
        Except.ok.injEq] at hwc
      simp only [generate_greengrass_v2_config, write_file, hw4, if_true,
        set_file_permissions, chmod_replace, lookupFS_setPath, if_pos rfl,
        Except.ok.injEq] at hgg
      subst hwc
      subst hgg
      refine ⟨?_, ?_, ?_, rfl, rfl, rfl⟩ <;>
        simp [lookupFS_setPath, hck, hcr, hkr, hfc, hfk, hfr,
          Ne.symm hck, Ne.symm hcr, Ne.symm hkr, Ne.symm hfc, Ne.symm hfk, Ne.symm hfr]

/-- C3 witness: the permission theorem applied to a concrete successful
run. -/
theorem claim3_private_key_permissions_witness :
    lookupFS (generate_config [] (fun _ => true) ["g"]
        { thing_name := "t", certificate_pem := "CERT", private_key_pem := "KEY",
          root_ca_path := "CA" }).2
      (generate_config [] (fun _ => true) ["g"]
        { thing_name := "t", certificate_pem := "CERT", private_key_pem := "KEY",
          root_ca_path := "CA" }).1.private_key_path =
      some (.file "KEY" private_key_perms) :=
  (claim3_private_key_permissions [] (fun _ => true) ["g"]
    { thing_name := "t", certificate_pem := "CERT", private_key_pem := "KEY",
      root_ca_path := "CA" } (by decide)).1

/-- C4: a record with only the required fields (empty runtime version,
no deployment group, no components, no optional fields) materializes
successfully on a writable tree, and the generated configuration
content carries the default runtime version string 2.9.0. -/
theorem claim4_minimal_record_defaults (fs : FS) (wOk : FilePath0 → Bool) (rp : FilePath0)
    (dc : DeviceConfig)
    (hver : dc.nucleus_version = "") (hgrp : dc.deployment_group = "")
    (_hcomp : dc.initial_components = []) (hproxy : dc.proxy_url = none)
    (hmqtt : dc.mqtt_port = none) (_hdom : dc.custom_domain = none)
    (hcd : ∃ fs1, create_directory_structure fs rp = Except.ok fs1)
    (hw : ∀ p, wOk p = true) :
    (generate_config fs wOk rp dc).1.success = true ∧
    lookupFS (generate_config fs wOk rp dc).2 (rp ++ ["config", "config.yaml"]) =
      some (.file (generate_yaml_config_content rp dc) shared_file_perms) ∧
    containsSub (generate_yaml_config_content rp dc) "2.9.0" = true := by
  obtain ⟨fs1, hcd⟩ := hcd
  have hcontains : containsSub (generate_yaml_config_content rp dc) "2.9.0" = true := by
    simp only [generate_yaml_config_content, hver, hmqtt, hproxy, hgrp, String.append_assoc,
      if_pos, reduceIte]
    repeat first
      | (apply containsSub_append_left; decide)
      | apply containsSub_append_right
  have hfr : rp ++ ["config", "config.yaml"] ≠ rp ++ ["certs", "root.ca.pem"] :=
    config_path_ne_certs_path rp _ _
  cases hwc : write_certificates fs1 wOk rp dc with
  | error e => simp [write_certificates, write_file, hw] at hwc
  | ok fs2 =>
  cases hgg : generate_greengrass_v2_config fs2 wOk rp dc with
  | error e => simp [generate_greengrass_v2_config, write_file, hw] at hgg
  | ok fs3 =>
    have hwcEq := hwc
    simp only [write_certificates, write_file, hw, if_true, set_file_permissions,
      chmod_replace, lookupFS_setPath, if_pos rfl, Except.ok.injEq] at hwcEq
    subst hwcEq
    have hggEq := hgg
    simp only [generate_greengrass_v2_config, write_file, hw, if_true, set_file_permissions,
      chmod_replace, lookupFS_setPath, if_pos rfl, Except.ok.injEq] at hggEq
    subst hggEq
    simp only [generate_config, hcd, hwc, hgg]
    rw [validate_configuration_ok]
    · refine ⟨rfl, ?_, hcontains⟩
      simp [lookupFS_setPath]
    · simp [existsP, lookupFS_setPath]
    · exact dirChildren_any_of_mem _ _ _ _ _ _
        (mem_setPath_of_ne _ _ _ _ _
          (mem_setPath_of_ne _ _ _ _ _ (List.mem_cons_self _ _) (Ne.symm hfr))
          (Ne.symm hfr))
        (childName_certs rp "root.ca.pem") rfl

/-- A minimal device record: only the required fields are supplied. -/
def dcC4 : DeviceConfig :=
  { device_id := "d1", thing_name := "t1", iot_endpoint := "e", aws_region := "r",
    root_ca_path := "CA", certificate_pem := "C", private_key_pem := "K",
    role_alias := "ra", role_alias_endpoint := "re" }

/-- C4 witness: the minimal-record theorem applied to a concrete record
on an empty writable tree. -/
theorem claim4_minimal_record_defaults_witness :
    (generate_config [] (fun _ => true) ["g"] dcC4).1.success = true ∧
    lookupFS (generate_config [] (fun _ => true) ["g"] dcC4).2 (["g"] ++ ["config", "config.yaml"]) =
      some (.file (generate_yaml_config_content ["g"] dcC4) shared_file_perms) ∧
    containsSub (generate_yaml_config_content ["g"] dcC4) "2.9.0" = true :=
  claim4_minimal_record_defaults [] (fun _ => true) ["g"] dcC4
    rfl rfl rfl rfl rfl rfl ⟨_, rfl⟩ (fun _ => rfl)

end Greengrass
